import Mathlib

/-!
Verification of src/bootstrap/widgets.py (django-bootstrap).

The file shallowly embeds the widget module: Python dicts over string keys
become association lists with Python update semantics (assignment to an
existing key keeps its position, a new key is appended), form values become
an inductive type of the Python values that can reach the widget code, and
the in-place dict mutations of the module become explicit operations on a
small heap of dict references.
-/

set_option autoImplicit false

namespace Bootstrap

/-- Python values that flow through the tri-state widget code paths:
booleans, strings and None.  Equality is Python equality restricted to
this domain (no numeric cross-type aliasing arises for these values). -/
inductive PyVal where
  | pybool (b : Bool)
  | pystr (s : String)
  | pynone
  deriving DecidableEq, Repr

/-- The literal dict on lines 160-165 of src/bootstrap/widgets.py used by
NullBooleanRadioSelect.render: True to "2", False to "3", "2" to "2",
"3" to "3". -/
def nbRenderTable : List (PyVal × String) :=
  [(.pybool true, "2"), (.pybool false, "3"),
   (.pystr "2", "2"), (.pystr "3", "3")]

/-- Embedding of the value transformation inside
NullBooleanRadioSelect.render (lines 158-167): subscript the literal dict
with the incoming value; a KeyError is caught and the value becomes "1". -/
def nbRenderValue (v : PyVal) : String :=
  match (nbRenderTable.find? (fun p => p.1 == v)).map (fun p => p.2) with
  | some s => s
  | none => "1"

/-- Embedding of NullBooleanRadioSelect.render (lines 158-168): map the
incoming value through the table (KeyError caught as "1"), then delegate
to the parent class render, abstracted here as the function argument
since RadioSelect.render is host-framework code. -/
def nbRender (parent : String → String → List (String × String) → String)
    (name : String) (value : PyVal) (attrs : List (String × String)) : String :=
  parent name (nbRenderValue value) attrs

/-- The literal dict on lines 172-179 of src/bootstrap/widgets.py used by
NullBooleanRadioSelect.value_from_datadict. -/
def nbParseTable : List (PyVal × Bool) :=
  [(.pystr "2", true), (.pybool true, true), (.pystr "True", true),
   (.pystr "3", false), (.pystr "False", false), (.pybool false, false)]

/-- The value stored in the submitted form-data dict under a name, when
the name is present. -/
def submitted (data : List (String × PyVal)) (name : String) : Option PyVal :=
  (data.find? (fun p => p.1 == name)).map (fun p => p.2)

/-- Embedding of NullBooleanRadioSelect.value_from_datadict
(lines 170-179): data.get(name) yields None for a missing key, then the
literal dict's .get yields None (here Option.none) on a miss. -/
def value_from_datadict (data : List (String × PyVal))
    (_files : List (String × PyVal)) (name : String) : Option Bool :=
  let value : PyVal :=
    match submitted data name with
    | some v => v
    | none => .pynone
  (nbParseTable.find? (fun p => p.1 == value)).map (fun p => p.2)

/-- An attribute dict: string keys to string values, in insertion order. -/
abbrev Attrs := List (String × String)

/-- Python d.get(k): the value stored under key k, if any. -/
def dget (d : Attrs) (k : String) : Option String :=
  (d.find? (fun p => p.1 == k)).map (fun p => p.2)

/-- Python item assignment d[k] = v: an existing key keeps its position
and gets the new value, a new key is appended at the end. -/
def dset (d : Attrs) (k v : String) : Attrs :=
  if d.any (fun p => p.1 == k) then
    d.map (fun p => if p.1 == k then (p.1, v) else p)
  else
    d ++ [(k, v)]

/-- Python d.update(e): assign each entry of e into d, in order. -/
def dupdate (d e : Attrs) : Attrs :=
  e.foldl (fun acc p => dset acc p.1 p.2) d

/-- The characters Python str.strip() removes. -/
def isPySpace (c : Char) : Bool :=
  c == ' ' || c == '\t' || c == '\n' || c == '\r' ||
  c == Char.ofNat 11 || c == Char.ofNat 12

/-- Python str.strip(): drop leading and trailing whitespace. -/
def pyStrip (s : String) : String :=
  String.mk (((s.data.dropWhile isPySpace).reverse.dropWhile isPySpace).reverse)

/-- The BootstrapWidget subclasses defined in src/bootstrap/widgets.py
(lines 73-206). -/
inductive BWClass where
  | textInput
  | autofocusTextInput
  | passwordInput
  | autofocusPasswordInput
  | textarea
  | autofocusTextarea
  | dateInput
  | timeInput
  | dateTimeInput
  | select
  | selectMultiple
  | radioSelect
  | checkboxSelectMultiple
  | nullBooleanSelect
  | nullBooleanRadioSelect
  | emailInput
  | numberInput
  deriving DecidableEq, Repr

/-- The css_classes attribute of each subclass, with Python attribute
inheritance resolved: the BootstrapWidget default is a single
"form-control" entry (line 51); DateInput, TimeInput and DateTimeInput
extend it (lines 102, 107, 112); RadioSelect and CheckboxSelectMultiple
reset it to an empty list (lines 125, 131), which
NullBooleanRadioSelect inherits; every other subclass inherits the
default. -/
def css_classes : BWClass → List String
  | .dateInput => ["form-control", "date"]
  | .timeInput => ["form-control", "time"]
  | .dateTimeInput => ["form-control", "datetime"]
  | .radioSelect => []
  | .checkboxSelectMultiple => []
  | .nullBooleanRadioSelect => []
  | _ => ["form-control"]

/-- The class-level extra_attrs dict of each subclass: empty (line 56)
except for the three Autofocus variants (lines 79, 88, 97). -/
def class_extra_attrs : BWClass → Attrs
  | .autofocusTextInput => [("autofocus", "autofocus")]
  | .autofocusPasswordInput => [("autofocus", "autofocus")]
  | .autofocusTextarea => [("autofocus", "autofocus")]
  | _ => []

/-- Embedding of BootstrapWidget.build_attrs (lines 61-70).  The
parameters mirror the attributes the method reads: self.css_classes,
self.extra_attrs (clsExtra), self.is_required (req), self.attrs
(selfAttrs), the extra_attrs argument (None or a dict; Python's
truthiness test skips both None and an empty dict) and the keyword
arguments. -/
def build_attrs (css : List String) (clsExtra : Attrs) (req : Bool)
    (selfAttrs : Attrs) (extra : Option Attrs) (kwargs : Attrs) : Attrs :=
  let attrs := dupdate selfAttrs kwargs
  let attrs := if req then dset attrs "aria-required" "true" else attrs
  let attrs := dupdate attrs clsExtra
  let attrs :=
    match extra with
    | some e => if e.isEmpty then attrs else dupdate attrs e
    | none => attrs
  let newClass := ((dget attrs "class").getD "") ++ " " ++ String.intercalate " " css
  dset attrs "class" (pyStrip newClass)

/-- A heap of Python dict objects; a reference is an index into it. -/
structure Heap where
  dicts : List Attrs
  deriving DecidableEq, Repr

/-- A reference to a dict object on the heap. -/
abbrev Ref := Nat

/-- Allocate a fresh dict object, returning its reference. -/
def halloc (h : Heap) (d : Attrs) : Ref × Heap :=
  (h.dicts.length, ⟨h.dicts ++ [d]⟩)

/-- Read the dict object behind a reference. -/
def hread (h : Heap) (r : Ref) : Attrs :=
  h.dicts.getD r []

/-- Overwrite the dict object behind a reference. -/
def hwrite (h : Heap) (r : Ref) (d : Attrs) : Heap :=
  ⟨h.dicts.set r d⟩

/-- In-place item assignment d[k] = v on the object behind a reference. -/
def hsetItem (h : Heap) (r : Ref) (k v : String) : Heap :=
  hwrite h r (dset (hread h r) k v)

/-- In-place d.update(e) with e a literal dict value. -/
def hupdateLit (h : Heap) (r : Ref) (e : Attrs) : Heap :=
  hwrite h r (dupdate (hread h r) e)

/-- In-place dst.update(src) between two dict objects. -/
def hupdateRef (h : Heap) (dst src : Ref) : Heap :=
  hwrite h dst (dupdate (hread h dst) (hread h src))

/-- Embedding of BootstrapWidget.build_attrs (lines 61-70) at the level
of dict objects: dict(self.attrs, **kwargs) on line 62 allocates a fresh
dict, and every later statement mutates only that fresh dict.
self.attrs, self.extra_attrs and the extra_attrs argument are dict
objects on the heap. -/
def build_attrs_heap (css : List String) (clsExtraR : Ref) (req : Bool)
    (selfAttrsR : Ref) (extraR : Option Ref) (kwargs : Attrs) (h : Heap) :
    Ref × Heap :=
  let rh := halloc h (dupdate (hread h selfAttrsR) kwargs)
  let r := rh.1
  let h1 := rh.2
  let h2 := if req then hsetItem h1 r "aria-required" "true" else h1
  let h3 := hupdateRef h2 r clsExtraR
  let h4 :=
    match extraR with
    | some er => if (hread h3 er).isEmpty then h3 else hupdateRef h3 r er
    | none => h3
  let newClass :=
    ((dget (hread h4 r) "class").getD "") ++ " " ++ String.intercalate " " css
  (r, hsetItem h4 r "class" (pyStrip newClass))

/-- Embedding of TemplateWidget.__init__ (lines 27-31) restricted to the
dict state it touches: the new instance has no extra_context attribute
of its own, so self.extra_context on line 30 resolves to the class-level
dict object, and .update mutates that shared object in place. -/
def templateWidgetInit (classCtxR : Ref) (kwargs : Attrs) (h : Heap) : Heap :=
  hupdateLit h classCtxR kwargs

/-- The host-framework (Django) form widget classes that appear as keys
of widget_map (lines 192-206), plus two default widget classes the map
has no entry for. -/
inductive DWidget where
  | textInput
  | passwordInput
  | textarea
  | dateInput
  | timeInput
  | dateTimeInput
  | select
  | selectMultiple
  | radioSelect
  | checkboxSelectMultiple
  | nullBooleanSelect
  | emailInput
  | numberInput
  | checkboxInput
  | hiddenInput
  deriving DecidableEq, Repr

/-- The class-level widget_map dict of ModelWidgets (lines 192-206),
from host default widget classes to the styled classes of this module. -/
def widget_map : List (DWidget × BWClass) :=
  [(.textInput, .textInput), (.passwordInput, .passwordInput),
   (.textarea, .textarea), (.dateInput, .dateInput), (.timeInput, .timeInput),
   (.dateTimeInput, .dateTimeInput), (.select, .select),
   (.selectMultiple, .selectMultiple), (.radioSelect, .radioSelect),
   (.checkboxSelectMultiple, .checkboxSelectMultiple),
   (.nullBooleanSelect, .nullBooleanSelect), (.emailInput, .emailInput),
   (.numberInput, .numberInput)]

/-- A model field as the resolver sees it: its name and the class of the
widget that field.formfield().widget yields (host-framework
introspection, external to this repository). -/
structure DField where
  name : String
  defaultWidget : DWidget
  deriving DecidableEq, Repr

/-- A model class: _meta.fields in declaration order. -/
structure ModelClass where
  fields : List DField
  deriving DecidableEq, Repr

/-- The error Django's _meta.get_field raises for an unknown name. -/
inductive FieldError where
  | fieldDoesNotExist (name : String)
  deriving DecidableEq, Repr

/-- Django's _meta.get_field: the named field, or FieldDoesNotExist. -/
def get_field (m : ModelClass) (k : String) : Except FieldError DField :=
  match m.fields.find? (fun f => f.name == k) with
  | some f => .ok f
  | none => .error (.fieldDoesNotExist k)

/-- The state of a ModelWidgets instance (lines 208-210): the model
class and the overrides dict.  Override values are opaque widget
objects, represented by identifiers. -/
structure ModelWidgets where
  model_class : ModelClass
  overrides : List (String × Nat)
  deriving DecidableEq, Repr

/-- What a ModelWidgets lookup can produce: an override widget object, a
styled widget class from widget_map, or the field's own default widget
instance (an instance of the given host class). -/
inductive Resolved where
  | override (w : Nat)
  | styled (c : BWClass)
  | original (c : DWidget)
  deriving DecidableEq, Repr

/-- Embedding of ModelWidgets.__getitem__ (lines 212-217), returned
together with the instance state after the call: the method performs
only reads, so the state component is the input instance. -/
def ModelWidgets.getItem (self : ModelWidgets) (key : String) :
    Except FieldError Resolved × ModelWidgets :=
  (match self.overrides.find? (fun p => p.1 == key) with
   | some p => .ok (.override p.2)
   | none =>
     match get_field self.model_class key with
     | .error e => .error e
     | .ok field =>
       match (widget_map.find? (fun q => q.1 == field.defaultWidget)).map
           (fun q => q.2) with
       | some c => .ok (.styled c)
       | none => .ok (.original field.defaultWidget),
   self)

/-- The names bound at module level of src/bootstrap/widgets.py: the
imported names (lines 1-6) and the classes defined in the module. -/
def moduleNames : List String :=
  ["forms", "flatatt", "Context", "loader", "ugettext_lazy", "collections",
   "TemplateWidget", "BootstrapWidget", "TextInput", "AutofocusTextInput",
   "PasswordInput", "AutofocusPasswordInput", "Textarea", "AutofocusTextarea",
   "DateInput", "TimeInput", "DateTimeInput", "Select", "SelectMultiple",
   "RadioSelect", "CheckboxSelectMultiple", "NullBooleanSelect",
   "NullBooleanRadioSelect", "EmailInput", "NumberInput", "ModelWidgets"]

/-- The error Python raises when a bare name resolves neither locally,
globally nor as a builtin. -/
inductive PyNameError where
  | nameError (name : String)
  deriving DecidableEq, Repr

/-- Embedding of ModelWidgets.__iter__ (lines 219-226).  The loop header
on line 221 reads the bare name overrides, not self.overrides; the name
is never assigned inside the function, so Python resolves it as a
global.  No module-level binding (and no builtin) carries that name, so
iterating the generator raises NameError before yielding anything.  The
first branch below mirrors the loop body as written (override keys, then
the model field names not already seen, in order); it is unreachable
because the name lookup it is guarded by fails. -/
def ModelWidgets.iterNames (self : ModelWidgets) :
    Except PyNameError (List String) :=
  if "overrides" ∈ moduleNames then
    .ok (self.overrides.map (fun p => p.1) ++
      (self.model_class.fields.map (fun f => f.name)).filter
        (fun n => !(self.overrides.map (fun p => p.1)).contains n))
  else
    .error (.nameError "overrides")

end Bootstrap

namespace Bootstrap

/-- Lookup in a dict written as a head entry and a tail. -/
theorem dget_cons (a : String × String) (t : Attrs) (k : String) :
    dget (a :: t) k = if a.1 = k then some a.2 else dget t k := by
  by_cases h : a.1 = k
  · rw [if_pos h]
    unfold dget
    rw [List.find?_cons_of_pos _ (by simpa using h)]
    rfl
  · rw [if_neg h]
    unfold dget
    rw [List.find?_cons_of_neg _ (by simpa using h)]

/-- Lookup distributes over dict concatenation, first hit winning. -/
theorem dget_append (d e : Attrs) (k : String) :
    dget (d ++ e) k =
      match dget d k with
      | some v => some v
      | none => dget e k := by
  induction d with
  | nil => rfl
  | cons a t ih =>
    by_cases h : a.1 = k <;>
      simp [List.cons_append, dget_cons, h, ih]

/-- Lookup after rewriting every entry holding a given key. -/
theorem dget_map_set (d : Attrs) (k v k2 : String) :
    dget (d.map (fun p => if p.1 == k then (p.1, v) else p)) k2 =
      if k2 = k then (if d.any (fun p => p.1 == k) then some v else none)
      else dget d k2 := by
  induction d with
  | nil => by_cases h : k2 = k <;> simp [dget, h]
  | cons a t ih =>
    by_cases ha : a.1 = k
    · by_cases h : k2 = k <;> by_cases hx : a.1 = k2 <;>
        simp_all [List.map_cons, dget_cons, List.any_cons, beq_iff_eq]
    · have hb : (a.1 == k) = false := by simpa using ha
      simp only [List.map_cons, hb, Bool.false_eq_true, if_false,
        List.any_cons, Bool.false_or]
      by_cases h : k2 = k <;> by_cases hx : a.1 = k2 <;>
        simp_all [dget_cons, beq_iff_eq]

/-- A dict has no key with a `true` membership test iff the test fails
on every entry. -/
theorem dget_any_of_mem (d : Attrs) (k : String)
    (h : k ∈ d.map Prod.fst) : d.any (fun p => p.1 == k) = true := by
  rw [List.any_eq_true]
  rcases List.mem_map.mp h with ⟨p, hp, hk⟩
  exact ⟨p, hp, by simpa using hk⟩

/-- Looking a key up after a single assignment: the assigned key holds
the new value, every other key is untouched. -/
theorem dget_dset (d : Attrs) (k v k2 : String) :
    dget (dset d k v) k2 = if k2 = k then some v else dget d k2 := by
  unfold dset
  by_cases hmem : d.any (fun p => p.1 == k)
  · rw [if_pos hmem, dget_map_set]
    by_cases h : k2 = k <;> simp [h, hmem]
  · rw [if_neg hmem, dget_append]
    have hnone : dget d k = none := by
      unfold dget
      rw [List.find?_eq_none.mpr]
      · rfl
      · intro p hp
        rcases List.any_eq_true.not.mp hmem with h2
        push_neg at h2
        exact h2 p hp
    by_cases h : k2 = k
    · subst h
      rw [hnone]
      simp [dget_cons]
    · cases hd : dget d k2 <;>
        simp [hd, dget_cons, dget, h, Ne.symm h]

/-- A key absent from a dict has no value. -/
theorem dget_eq_none_iff (d : Attrs) (k : String) :
    dget d k = none ↔ k ∉ d.map Prod.fst := by
  induction d with
  | nil => simp [dget]
  | cons a t ih =>
    by_cases h : a.1 = k <;>
      simp_all [dget_cons, List.map_cons, h, eq_comm]

/-- Updating with a dict that lacks a key does not change that key. -/
theorem dget_dupdate_not_mem (d e : Attrs) (k : String)
    (h : k ∉ e.map Prod.fst) :
    dget (dupdate d e) k = dget d k := by
  induction e generalizing d with
  | nil => rfl
  | cons a t ih =>
    simp only [List.map_cons, List.mem_cons, not_or] at h
    show dget (dupdate (dset d a.1 a.2) t) k = dget d k
    rw [ih _ h.2, dget_dset]
    simp [h.1]

/-- Updating with a duplicate-free dict: keys of the update take its
values, all other keys keep the old ones. -/
theorem dget_dupdate (d e : Attrs) (k : String)
    (hnd : (e.map Prod.fst).Nodup) :
    dget (dupdate d e) k =
      match dget e k with
      | some v => some v
      | none => dget d k := by
  induction e generalizing d with
  | nil => rfl
  | cons a t ih =>
    simp only [List.map_cons, List.nodup_cons] at hnd
    show dget (dupdate (dset d a.1 a.2) t) k = _
    by_cases h : a.1 = k
    · subst h
      have ht : dget t a.1 = none := (dget_eq_none_iff t a.1).mpr hnd.1
      rw [dget_dupdate_not_mem _ _ _ hnd.1, dget_dset]
      simp [dget_cons, ht]
    · rw [ih _ hnd.2, dget_dset]
      simp [dget_cons, h, Ne.symm h]

end Bootstrap

namespace Bootstrap

/-- Claim C1: NullBooleanRadioSelect.render maps the incoming value
through the table (True to "2", False to "3", "2" to "2", "3" to "3")
before delegating to the parent render, and every value the table does
not map, None included, is rendered as the wire code "1". -/
theorem nullBooleanRadioSelect_render_mapping
    (parent : String → String → List (String × String) → String)
    (name : String) (v : PyVal) (attrs : List (String × String)) :
    (v = .pybool true → nbRender parent name v attrs = parent name "2" attrs) ∧
    (v = .pybool false → nbRender parent name v attrs = parent name "3" attrs) ∧
    (v = .pystr "2" → nbRender parent name v attrs = parent name "2" attrs) ∧
    (v = .pystr "3" → nbRender parent name v attrs = parent name "3" attrs) ∧
    (v ≠ .pybool true → v ≠ .pybool false → v ≠ .pystr "2" → v ≠ .pystr "3" →
      nbRender parent name v attrs = parent name "1" attrs) := by
  refine ⟨?_, ?_, ?_, ?_, ?_⟩ <;> intro h
  · subst h; rfl
  · subst h; rfl
  · subst h; rfl
  · subst h; rfl
  · intro h2 h3 h4
    have hv : nbRenderValue v = "1" := by
      cases v with
      | pynone => rfl
      | pybool b =>
        cases b with
        | true => exact absurd rfl h
        | false => exact absurd rfl h2
      | pystr s =>
        have hs2 : s ≠ "2" := fun hs => h3 (by rw [hs])
        have hs3 : s ≠ "3" := fun hs => h4 (by rw [hs])
        have hfind : nbRenderTable.find? (fun p => p.1 == .pystr s) = none := by
          rw [List.find?_eq_none]
          intro p hp
          simp only [nbRenderTable, List.mem_cons, List.not_mem_nil, or_false] at hp
          rcases hp with hk | hk | hk | hk <;> subst hk <;>
            simp only [beq_iff_eq] <;>
            first
              | exact fun hh => PyVal.noConfusion hh
              | exact fun hh => hs2 (PyVal.pystr.inj hh).symm
              | exact fun hh => hs3 (PyVal.pystr.inj hh).symm
        simp only [nbRenderValue, hfind]
        rfl
    show parent name (nbRenderValue v) attrs = parent name "1" attrs
    rw [hv]

/-- Closed witness for the rendering claim at the concrete unmapped
value None. -/
theorem nullBooleanRadioSelect_render_mapping_witness :
    nbRender (fun _ v _ => v) "field" .pynone [] = "1" :=
  (nullBooleanRadioSelect_render_mapping (fun _ v _ => v) "field" .pynone
    []).2.2.2.2 (by decide) (by decide) (by decide) (by decide)

/-- Claim C2: value_from_datadict returns True when the submitted value
is "2", True or "True"; False when it is "3", "False" or False; and None
for every other value, the wire code "1" and a missing key included. -/
theorem nullBooleanRadioSelect_parse
    (data files : List (String × PyVal)) (name : String) :
    (submitted data name = some (.pystr "2") ∨
        submitted data name = some (.pybool true) ∨
        submitted data name = some (.pystr "True") →
      value_from_datadict data files name = some true) ∧
    (submitted data name = some (.pystr "3") ∨
        submitted data name = some (.pystr "False") ∨
        submitted data name = some (.pybool false) →
      value_from_datadict data files name = some false) ∧
    (∀ x, submitted data name = some x →
      x ∉ [PyVal.pystr "2", .pybool true, .pystr "True",
           .pystr "3", .pystr "False", .pybool false] →
      value_from_datadict data files name = none) ∧
    (submitted data name = none → value_from_datadict data files name = none) := by
  have key : ∀ x, submitted data name = some x →
      value_from_datadict data files name =
        (nbParseTable.find? (fun p => p.1 == x)).map (fun p => p.2) := by
    intro x hx
    simp only [value_from_datadict, hx]
  refine ⟨?_, ?_, ?_, ?_⟩
  · rintro (h | h | h) <;> rw [key _ h] <;> rfl
  · rintro (h | h | h) <;> rw [key _ h] <;> rfl
  · intro x hx hmem
    rw [key _ hx]
    have hfind : nbParseTable.find? (fun p => p.1 == x) = none := by
      rw [List.find?_eq_none]
      intro p hp
      simp only [nbParseTable, List.mem_cons, List.not_mem_nil, or_false] at hp
      simp only [List.mem_cons, List.not_mem_nil, or_false, not_or] at hmem
      obtain ⟨m1, m2, m3, m4, m5, m6⟩ := hmem
      rcases hp with h | h | h | h | h | h <;> subst h <;>
        simp only [beq_iff_eq] <;>
        first
          | exact fun hh => m1 hh.symm
          | exact fun hh => m2 hh.symm
          | exact fun hh => m3 hh.symm
          | exact fun hh => m4 hh.symm
          | exact fun hh => m5 hh.symm
          | exact fun hh => m6 hh.symm
    rw [hfind]
    rfl
  · intro hx
    simp only [value_from_datadict, hx]
    rfl

/-- Closed witness for the parsing claim: concrete wire values "2" and
"1" and a missing key. -/
theorem nullBooleanRadioSelect_parse_witness :
    value_from_datadict [("q", .pystr "2")] [] "q" = some true ∧
    value_from_datadict [("q", .pystr "1")] [] "q" = none ∧
    value_from_datadict [("q", .pystr "2")] [] "other" = none :=
  ⟨(nullBooleanRadioSelect_parse [("q", .pystr "2")] [] "q").1
      (Or.inl (by decide)),
   (nullBooleanRadioSelect_parse [("q", .pystr "1")] [] "q").2.2.1
      (.pystr "1") (by decide) (by decide),
   (nullBooleanRadioSelect_parse [("q", .pystr "2")] [] "other").2.2.2
      (by decide)⟩

/-- Claim C5: for every BootstrapWidget subclass whose css_classes list
is non-empty, build_attrs with a pre-existing class attribute "foo"
produces the class value "foo" followed by the listed classes in order,
space-separated and with no surrounding whitespace; with no pre-existing
class attribute it produces just the listed classes. -/
theorem build_attrs_css_classes (w : BWClass) (req : Bool)
    (h : css_classes w ≠ []) :
    dget (build_attrs (css_classes w) (class_extra_attrs w) req
        [("class", "foo")] none []) "class" =
      some ("foo " ++ String.intercalate " " (css_classes w)) ∧
    dget (build_attrs (css_classes w) (class_extra_attrs w) req
        [] none []) "class" =
      some (String.intercalate " " (css_classes w)) := by
  cases w <;> cases req <;>
    first
      | exact absurd rfl h
      | exact ⟨by decide, by decide⟩

/-- Closed witness for the css-class claim at DateInput, whose list has
two classes. -/
theorem build_attrs_css_classes_witness :
    css_classes BWClass.dateInput ≠ [] ∧
    dget (build_attrs (css_classes .dateInput) (class_extra_attrs .dateInput)
        true [("class", "foo")] none []) "class" = some "foo form-control date" := by
  have h := build_attrs_css_classes .dateInput true (by decide)
  exact ⟨by decide, h.1⟩

/-- Claim C6 fails as stated: the call-site extra attributes do not win
for the key "class", because the css-append step rewrites that key last.
Here the call-site extras bind "class" to "custom" but the final mapping
holds "custom form-control". -/
theorem build_attrs_extra_class_counterexample :
    dget [("class", "custom")] "class" = some "custom" ∧
    dget (build_attrs ["form-control"] [] false []
        (some [("class", "custom")]) []) "class" = some "custom form-control" ∧
    dget (build_attrs ["form-control"] [] false []
        (some [("class", "custom")]) []) "class" ≠ some "custom" := by
  exact ⟨by decide, by decide, by decide⟩

/-- Claim C6 (amended): build_attrs merges instance attrs, keyword
arguments, the required-state default, class-level extra attributes and
call-site extra attributes in that precedence order, later sources
overwriting earlier ones for the same key, for every key other than
"class"; in particular a non-"class" key present in the call-site extras
holds exactly the call-site value.  The key "class" is subsequently
rewritten by the css-class append step. -/
theorem build_attrs_merge_precedence
    (css : List String) (clsExtra : Attrs) (req : Bool)
    (selfAttrs kwargs e : Attrs) (k : String)
    (hk : k ≠ "class")
    (hcls : (clsExtra.map Prod.fst).Nodup)
    (hkw : (kwargs.map Prod.fst).Nodup)
    (he : (e.map Prod.fst).Nodup) :
    (dget (build_attrs css clsExtra req selfAttrs (some e) kwargs) k =
      match dget e k with
      | some v => some v
      | none =>
        match dget clsExtra k with
        | some v => some v
        | none =>
          if req ∧ k = "aria-required" then some "true"
          else
            match dget kwargs k with
            | some v => some v
            | none => dget selfAttrs k) ∧
    (∀ v, dget e k = some v →
      dget (build_attrs css clsExtra req selfAttrs (some e) kwargs) k = some v) := by
  have main :
      dget (build_attrs css clsExtra req selfAttrs (some e) kwargs) k =
        match dget e k with
        | some v => some v
        | none =>
          match dget clsExtra k with
          | some v => some v
          | none =>
            if req ∧ k = "aria-required" then some "true"
            else
              match dget kwargs k with
              | some v => some v
              | none => dget selfAttrs k := by
    simp only [build_attrs]
    rw [dget_dset, if_neg hk]
    by_cases hemp : e.isEmpty = true
    · have he0 : e = [] := by
        cases e with
        | nil => rfl
        | cons a t => simp [List.isEmpty] at hemp
      subst he0
      rw [if_pos hemp]
      rw [dget_dupdate _ _ _ hcls]
      have hnil : dget [] k = none := rfl
      rw [hnil]
      by_cases hreq : req = true
      · rw [if_pos hreq, dget_dset, dget_dupdate _ _ _ hkw, hreq]
        by_cases haria : k = "aria-required" <;> simp [haria]
      · rw [if_neg hreq, dget_dupdate _ _ _ hkw]
        have hreqf : req = false := by
          cases req
          · rfl
          · exact absurd rfl hreq
        rw [hreqf]
        simp
    · rw [if_neg hemp]
      rw [dget_dupdate _ _ _ he, dget_dupdate _ _ _ hcls]
      by_cases hreq : req = true
      · rw [if_pos hreq, dget_dset, dget_dupdate _ _ _ hkw, hreq]
        by_cases haria : k = "aria-required" <;> simp [haria]
      · rw [if_neg hreq, dget_dupdate _ _ _ hkw]
        have hreqf : req = false := by
          cases req
          · rfl
          · exact absurd rfl hreq
        rw [hreqf]
        simp
  refine ⟨main, fun v hv => ?_⟩
  rw [main, hv]

/-- Closed witness for the merge-precedence claim: a call-site
"placeholder" entry overrides the instance one. -/
theorem build_attrs_merge_precedence_witness :
    dget (build_attrs ["form-control"] [] true [("placeholder", "x")]
        (some [("placeholder", "y")]) []) "placeholder" = some "y" := by
  have h := build_attrs_merge_precedence ["form-control"] [] true
    [("placeholder", "x")] [] [("placeholder", "y")] "placeholder"
    (by decide) (by decide) (by decide) (by decide)
  exact h.2 "y" (by decide)

/-- Claim C9 fails as stated: call-site extra attributes are merged
after the required marker is written, so they can overwrite it even on a
required widget. -/
theorem build_attrs_aria_counterexample :
    dget (build_attrs ["form-control"] [] true []
        (some [("aria-required", "false")]) []) "aria-required" = some "false" ∧
    dget (build_attrs ["form-control"] [] true []
        (some [("aria-required", "false")]) []) "aria-required" ≠ some "true" := by
  exact ⟨by decide, by decide⟩

/-- Claim C9 (amended): when is_required holds and neither the
class-level extra attributes nor the call-site extra attributes bind
"aria-required", the mapping produced by build_attrs holds
"aria-required" = "true" for every base attrs and keyword arguments. -/
theorem build_attrs_aria_required
    (css : List String) (clsExtra selfAttrs kwargs : Attrs)
    (extra : Option Attrs)
    (hcls : dget clsExtra "aria-required" = none)
    (hext : ∀ e, extra = some e → dget e "aria-required" = none) :
    dget (build_attrs css clsExtra true selfAttrs extra kwargs)
      "aria-required" = some "true" := by
  have haria : ("aria-required" : String) ≠ "class" := by decide
  have hclsmem : "aria-required" ∉ clsExtra.map Prod.fst :=
    (dget_eq_none_iff _ _).mp hcls
  cases extra with
  | none =>
    simp only [build_attrs]
    rw [dget_dset, if_neg haria]
    rw [dget_dupdate_not_mem _ _ _ hclsmem, if_true, dget_dset]
    simp
  | some e =>
    have hno : "aria-required" ∉ e.map Prod.fst :=
      (dget_eq_none_iff _ _).mp (hext e rfl)
    simp only [build_attrs]
    rw [dget_dset, if_neg haria]
    by_cases hemp : e.isEmpty = true
    · rw [if_pos hemp]
      rw [dget_dupdate_not_mem _ _ _ hclsmem, if_true, dget_dset]
      simp
    · rw [if_neg hemp]
      rw [dget_dupdate_not_mem _ _ _ hno,
        dget_dupdate_not_mem _ _ _ hclsmem, if_true, dget_dset]
      simp

/-- Closed witness for the required-marker claim with no extra
attributes at all. -/
theorem build_attrs_aria_required_witness :
    dget (build_attrs ["form-control"] [] true [("class", "foo")] none [])
      "aria-required" = some "true" := by
  exact build_attrs_aria_required ["form-control"] [] [("class", "foo")] []
    none (by decide) (fun e he => nomatch he)

/-- Reading a reference other than the written one sees the old heap. -/
theorem hread_hwrite_ne (h : Heap) (r r' : Ref) (d : Attrs)
    (hne : r' ≠ r) : hread (hwrite h r d) r' = hread h r' := by
  unfold hread hwrite
  rw [List.getD_eq_getElem?_getD, List.getElem?_set_ne (Ne.symm hne),
    ← List.getD_eq_getElem?_getD]

/-- Reading a written live reference sees the written dict. -/
theorem hread_hwrite_self (h : Heap) (r : Ref) (d : Attrs)
    (hr : r < h.dicts.length) : hread (hwrite h r d) r = d := by
  unfold hread hwrite
  rw [List.getD_eq_getElem?_getD, List.getElem?_set_eq_of_lt _ hr]
  rfl

/-- Extending the heap with a fresh dict preserves live references. -/
theorem hread_extend (h : Heap) (d : Attrs) (r' : Ref)
    (hr : r' < h.dicts.length) :
    hread ⟨h.dicts ++ [d]⟩ r' = hread h r' := by
  unfold hread
  rw [List.getD_eq_getElem?_getD, List.getElem?_append_left hr,
    ← List.getD_eq_getElem?_getD]

/-- build_attrs touches only the dict it allocates: every reference
live before the call reads the same dict afterwards. -/
theorem build_attrs_heap_preserves (css : List String) (clsExtraR : Ref)
    (req : Bool) (selfAttrsR : Ref) (extraR : Option Ref) (kwargs : Attrs)
    (h : Heap) (r' : Ref) (hr : r' < h.dicts.length) :
    hread (build_attrs_heap css clsExtraR req selfAttrsR extraR kwargs h).2 r'
      = hread h r' := by
  have hne : r' ≠ h.dicts.length := Nat.ne_of_lt hr
  unfold build_attrs_heap
  simp only [hsetItem, hupdateRef, halloc]
  repeat'
    first
      | rw [hread_hwrite_ne _ _ _ _ hne]
      | split
  all_goals exact hread_extend h _ r' hr

/-- Claim C10: build_attrs allocates a fresh dict for its result and
mutates only that dict: the widget's stored attrs object and the
caller's extra_attrs object read unchanged after the call, and the
result reference is the fresh one, distinct from both inputs. -/
theorem build_attrs_no_mutation (css : List String) (clsExtraR : Ref)
    (req : Bool) (selfAttrsR extraR : Ref) (kwargs : Attrs) (h : Heap)
    (hself : selfAttrsR < h.dicts.length)
    (hextra : extraR < h.dicts.length) :
    hread (build_attrs_heap css clsExtraR req selfAttrsR (some extraR) kwargs h).2
        selfAttrsR = hread h selfAttrsR ∧
    hread (build_attrs_heap css clsExtraR req selfAttrsR (some extraR) kwargs h).2
        extraR = hread h extraR ∧
    (build_attrs_heap css clsExtraR req selfAttrsR (some extraR) kwargs h).1
        ≠ selfAttrsR ∧
    (build_attrs_heap css clsExtraR req selfAttrsR (some extraR) kwargs h).1
        ≠ extraR := by
  have hfst :
      (build_attrs_heap css clsExtraR req selfAttrsR (some extraR) kwargs h).1
        = h.dicts.length := rfl
  refine ⟨build_attrs_heap_preserves _ _ _ _ _ _ _ _ hself,
    build_attrs_heap_preserves _ _ _ _ _ _ _ _ hextra, ?_, ?_⟩
  · rw [hfst]
    exact Nat.ne_of_gt hself
  · rw [hfst]
    exact Nat.ne_of_gt hextra

/-- Closed witness for the no-mutation claim on a concrete three-object
heap. -/
theorem build_attrs_no_mutation_witness :
    hread (build_attrs_heap ["form-control"] 2 true 0 (some 1) []
        ⟨[[("class", "a")], [("data-x", "1")], []]⟩).2 0 = [("class", "a")] ∧
    hread (build_attrs_heap ["form-control"] 2 true 0 (some 1) []
        ⟨[[("class", "a")], [("data-x", "1")], []]⟩).2 1 = [("data-x", "1")] := by
  have h := build_attrs_no_mutation ["form-control"] 2 true 0 1 []
    ⟨[[("class", "a")], [("data-x", "1")], []]⟩ (by decide) (by decide)
  exact ⟨h.1.trans (by decide), h.2.1.trans (by decide)⟩

/-- Claim C4 fails as stated: constructing a TemplateWidget with a
keyword argument mutates the class-level extra_context dict in place
(line 30 updates the shared class dict, since the instance has no
extra_context attribute of its own). -/
theorem templateWidget_extra_context_counterexample :
    hread (templateWidgetInit 0 [("banner", "hello")] ⟨[[]]⟩) 0
        = [("banner", "hello")] ∧
    hread (templateWidgetInit 0 [("banner", "hello")] ⟨[[]]⟩) 0
        ≠ hread (⟨[[]]⟩ : Heap) 0 := by
  exact ⟨by decide, by decide⟩

/-- Claim C4 (amended): BootstrapWidget.extra_attrs and
ModelWidgets.widget_map are only read, never written: build_attrs leaves
the class-level extra-attrs dict object unchanged and lookup leaves the
instance (model class and overrides) unchanged.  TemplateWidget's
extra_context, however, is mutated in place by __init__, which merges
the constructor keyword arguments into the shared class-level dict; it
is left unchanged exactly when no keyword arguments are passed. -/
theorem class_level_dict_mutation (h : Heap) (classCtxR : Ref)
    (kwargs kwargs2 : Attrs) (css : List String) (clsExtraR : Ref)
    (req : Bool) (selfAttrsR : Ref) (extraR : Option Ref)
    (hctx : classCtxR < h.dicts.length)
    (hcls : clsExtraR < h.dicts.length) :
    (kwargs = [] →
      hread (templateWidgetInit classCtxR kwargs h) classCtxR
        = hread h classCtxR) ∧
    hread (templateWidgetInit classCtxR kwargs h) classCtxR
      = dupdate (hread h classCtxR) kwargs ∧
    hread (build_attrs_heap css clsExtraR req selfAttrsR extraR kwargs2 h).2
        clsExtraR = hread h clsExtraR ∧
    (∀ mw key, (ModelWidgets.getItem mw key).2 = mw) := by
  refine ⟨?_, ?_, build_attrs_heap_preserves _ _ _ _ _ _ _ _ hcls,
    fun mw key => rfl⟩
  · intro hk
    subst hk
    show hread (hwrite h classCtxR (dupdate (hread h classCtxR) [])) classCtxR
      = hread h classCtxR
    exact hread_hwrite_self _ _ _ hctx
  · show hread (hwrite h classCtxR (dupdate (hread h classCtxR) kwargs)) classCtxR
      = dupdate (hread h classCtxR) kwargs
    exact hread_hwrite_self _ _ _ hctx

/-- Closed witness for the class-level dict claim: a concrete two-object
heap, a keyword argument merged into the class dict of ref 0. -/
theorem class_level_dict_mutation_witness :
    hread (templateWidgetInit 0 [("a", "b")] ⟨[[], []]⟩) 0 = [("a", "b")] ∧
    hread (build_attrs_heap ["form-control"] 1 false 0 none [] ⟨[[], []]⟩).2 1
      = [] := by
  have h := class_level_dict_mutation ⟨[[], []]⟩ 0 [("a", "b")] []
    ["form-control"] 1 false 0 none (by decide) (by decide)
  exact ⟨h.2.1.trans (by decide), h.2.2.1.trans (by decide)⟩

/-- Claim C3: iterating any ModelWidgets instance raises NameError
instead of enumerating names, because __iter__ (line 221) reads the
global name overrides, which is not bound anywhere in the module. -/
theorem modelWidgets_iter_raises (self : ModelWidgets) :
    ModelWidgets.iterNames self = .error (.nameError "overrides") := by
  unfold ModelWidgets.iterNames
  rw [if_neg (by decide)]

/-- Claim C7: lookup returns the override whenever the key is an
override key, regardless of the model's fields; otherwise the styled
class from widget_map when the field's default widget class has an
entry; otherwise the field's own default widget instance. -/
theorem modelWidgets_getItem_resolution (mw : ModelWidgets) (key : String) :
    (∀ p, mw.overrides.find? (fun q => q.1 == key) = some p →
      (ModelWidgets.getItem mw key).1 = .ok (.override p.2)) ∧
    (mw.overrides.find? (fun q => q.1 == key) = none →
      ∀ f, get_field mw.model_class key = .ok f →
        (∀ c, widget_map.find? (fun q => q.1 == f.defaultWidget) = some c →
          (ModelWidgets.getItem mw key).1 = .ok (.styled c.2)) ∧
        (widget_map.find? (fun q => q.1 == f.defaultWidget) = none →
          (ModelWidgets.getItem mw key).1 = .ok (.original f.defaultWidget))) := by
  refine ⟨?_, ?_⟩
  · intro p hp
    simp only [ModelWidgets.getItem, hp]
  · intro hnone f hf
    constructor
    · intro c hc
      simp only [ModelWidgets.getItem, hnone, hf, hc]
      rfl
    · intro hc
      simp only [ModelWidgets.getItem, hnone, hf, hc]
      rfl

/-- Closed witness for the resolution claim: an override hit, a mapped
field and an unmapped field on a concrete model. -/
theorem modelWidgets_getItem_resolution_witness :
    (ModelWidgets.getItem
        ⟨⟨[⟨"title", .textInput⟩, ⟨"done", .checkboxInput⟩]⟩, [("x", 7)]⟩
        "x").1 = .ok (.override 7) ∧
    (ModelWidgets.getItem
        ⟨⟨[⟨"title", .textInput⟩, ⟨"done", .checkboxInput⟩]⟩, []⟩
        "title").1 = .ok (.styled .textInput) ∧
    (ModelWidgets.getItem
        ⟨⟨[⟨"title", .textInput⟩, ⟨"done", .checkboxInput⟩]⟩, []⟩
        "done").1 = .ok (.original .checkboxInput) := by
  refine ⟨?_, ?_, ?_⟩
  · exact (modelWidgets_getItem_resolution
      ⟨⟨[⟨"title", .textInput⟩, ⟨"done", .checkboxInput⟩]⟩, [("x", 7)]⟩
      "x").1 ("x", 7) rfl
  · exact ((modelWidgets_getItem_resolution
      ⟨⟨[⟨"title", .textInput⟩, ⟨"done", .checkboxInput⟩]⟩, []⟩ "title").2 rfl
      ⟨"title", .textInput⟩ rfl).1 (DWidget.textInput, BWClass.textInput) rfl
  · exact ((modelWidgets_getItem_resolution
      ⟨⟨[⟨"title", .textInput⟩, ⟨"done", .checkboxInput⟩]⟩, []⟩ "done").2 rfl
      ⟨"done", .checkboxInput⟩ rfl).2 rfl

/-- Claim C8: for a name that is neither an override key nor a model
field name, lookup fails with the model's FieldDoesNotExist error for
that name, propagated unrecovered, and the instance state is unchanged
by the failed lookup. -/
theorem modelWidgets_getItem_missing (mw : ModelWidgets) (key : String)
    (hov : key ∉ mw.overrides.map Prod.fst)
    (hf : key ∉ mw.model_class.fields.map DField.name) :
    (ModelWidgets.getItem mw key).1 = .error (.fieldDoesNotExist key) ∧
    (ModelWidgets.getItem mw key).2 = mw := by
  have h1 : mw.overrides.find? (fun p => p.1 == key) = none := by
    rw [List.find?_eq_none]
    intro p hp
    simp only [beq_iff_eq]
    exact fun hh => hov (List.mem_map.mpr ⟨p, hp, hh⟩)
  have h2 : mw.model_class.fields.find? (fun f => f.name == key) = none := by
    rw [List.find?_eq_none]
    intro f hfm
    simp only [beq_iff_eq]
    exact fun hh => hf (List.mem_map.mpr ⟨f, hfm, hh⟩)
  constructor
  · simp only [ModelWidgets.getItem, h1, get_field, h2]
  · rfl

/-- Closed witness for the missing-name claim on a concrete model. -/
theorem modelWidgets_getItem_missing_witness :
    (ModelWidgets.getItem ⟨⟨[⟨"title", .textInput⟩]⟩, [("x", 7)]⟩ "zzz").1
      = .error (.fieldDoesNotExist "zzz") := by
  exact (modelWidgets_getItem_missing ⟨⟨[⟨"title", .textInput⟩]⟩, [("x", 7)]⟩
    "zzz" (by decide) (by decide)).1

end Bootstrap
